import Mathlib

/-!
Shallow embedding of the daangn-watcher service (src/main.py) and proofs
about its watch lifecycle, deduplication ledger, monitor loop and one-shot
scan endpoint.

Modelling conventions:
* timestamps (timezone-aware datetimes in the source) are integers counting
  seconds, so `timedelta(days = d)` is `d * 86400` and datetime comparison
  is integer comparison;
* a Python value that may be `None` is an `Option`;
* the sqlite table `product_table` is a `List Row`, `INSERT OR IGNORE` on
  the primary key `id` appends only when no row with that id exists;
* exceptions that a function lets escape are surfaced as an `Option String`
  (the message) in its result.
-/

/-- One listing as assembled by `fetch_search_results`: the dict pushed into
`items`, with `pull_up_time_text` holding the parsed posting datetime or
`None` when the detail page gave no usable timestamp. -/
structure Item where
  id : String
  title : String
  description : String
  url : String
  price : Option Int
  seller : String
  location : String
  search_keyword : String
  pull_up_time_text : Option Int
  deriving DecidableEq, Repr

/-- One row of the sqlite table `product_table` (the `ts DEFAULT
CURRENT_TIMESTAMP` column is not modelled; no code path reads it). -/
structure Row where
  id : String
  keyword : String
  title : String
  description : String
  price : Int
  seller : String
  location : String
  url : String
  deriving DecidableEq, Repr

/-- Python `int(float(price)) if price else 0`: an absent (or zero, hence
falsy) price becomes 0. -/
def price_int (price : Option Int) : Int := price.getD 0

/-- `product_exists`: `SELECT 1 FROM product_table WHERE id = ?` followed by
`bool(r)`. -/
def product_exists (db : List Row) (item_id : String) : Bool :=
  db.any (fun r => r.id == item_id)

/-- Semantics of `INSERT OR IGNORE INTO product_table` with primary key
`id`: a no-op when a row with this id already exists, otherwise an append. -/
def sql_insert_or_ignore (row : Row) (db : List Row) : List Row :=
  if db.any (fun r => r.id == row.id) then db else db ++ [row]

/-- `mark_product`: converts the price, runs `INSERT OR IGNORE`, and its
`try/except` swallows every exception, so the second component (an error
propagated to the caller) is always `none`. -/
def mark_product (item_id keyword title description : String) (price : Option Int)
    (seller location url : String) (db : List Row) : List Row × Option String :=
  (sql_insert_or_ignore
    ⟨item_id, keyword, title, description, price_int price, seller, location, url⟩ db, none)

/-- Number of rows of the table carrying a given id. -/
def row_count (item_id : String) (db : List Row) : Nat :=
  (db.filter (fun r => r.id == item_id)).length

theorem product_exists_false_iff_row_count_zero (db : List Row) (i : String) :
    product_exists db i = false ↔ row_count i db = 0 := by
  induction db with
  | nil => simp [product_exists, row_count]
  | cons r rest ih =>
    by_cases h : r.id == i
    · simp [product_exists, row_count, h]
    · simp only [product_exists, row_count] at ih
      simp [product_exists, row_count, h, ih]

theorem row_count_insert_self (row : Row) (db : List Row)
    (h : product_exists db row.id = false) :
    row_count row.id (sql_insert_or_ignore row db) = row_count row.id db + 1 := by
  have hany : db.any (fun r => r.id == row.id) = false := h
  simp [sql_insert_or_ignore, hany, row_count, List.filter_append]

theorem sql_insert_or_ignore_of_exists (row : Row) (db : List Row)
    (h : product_exists db row.id = true) :
    sql_insert_or_ignore row db = db := by
  have hc : db.any (fun r => r.id == row.id) = true := h
  simp [sql_insert_or_ignore, hc]

/-- C5: inserting the same entry twice through `mark_product` leaves exactly
one row with that id (given the primary-key invariant that the table held at
most one such row to begin with), and neither call raises to its caller. -/
theorem C5_mark_product_idempotent (db : List Row) (e : Row)
    (hinv : row_count e.id db ≤ 1) :
    row_count e.id
      ((mark_product e.id e.keyword e.title e.description (some e.price)
        e.seller e.location e.url
        ((mark_product e.id e.keyword e.title e.description (some e.price)
          e.seller e.location e.url db).1)).1) = 1 ∧
    (mark_product e.id e.keyword e.title e.description (some e.price)
        e.seller e.location e.url db).2 = none ∧
    (mark_product e.id e.keyword e.title e.description (some e.price)
        e.seller e.location e.url
        ((mark_product e.id e.keyword e.title e.description (some e.price)
          e.seller e.location e.url db).1)).2 = none := by
  refine ⟨?_, rfl, rfl⟩
  simp only [mark_product]
  set rrow : Row := ⟨e.id, e.keyword, e.title, e.description, price_int (some e.price),
    e.seller, e.location, e.url⟩ with hr
  have hid : rrow.id = e.id := rfl
  by_cases h : product_exists db e.id = true
  · have h1 : 1 ≤ row_count e.id db := by
      rcases Nat.eq_zero_or_pos (row_count e.id db) with h0 | h1
      · rw [← product_exists_false_iff_row_count_zero] at h0
        rw [h0] at h
        exact absurd h (by simp)
      · exact h1
    have hx : product_exists db rrow.id = true := by rw [hid]; exact h
    have heq := sql_insert_or_ignore_of_exists rrow db hx
    rw [heq, heq]
    omega
  · have hfalse : product_exists db e.id = false := by
      cases hpe : product_exists db e.id
      · rfl
      · exact absurd hpe h
    have hx : product_exists db rrow.id = false := by rw [hid]; exact hfalse
    have h0 : row_count e.id db = 0 :=
      (product_exists_false_iff_row_count_zero db e.id).mp hfalse
    have hc : db.any (fun r => r.id == rrow.id) = false := hx
    have hnow : product_exists (sql_insert_or_ignore rrow db) rrow.id = true := by
      simp [sql_insert_or_ignore, hc, product_exists]
    have heq2 := sql_insert_or_ignore_of_exists rrow (sql_insert_or_ignore rrow db) hnow
    rw [heq2]
    have h3 := row_count_insert_self rrow db hx
    rw [hid] at h3
    rw [h3]
    omega

/-- Witness for C5 at a concrete entry and empty table. -/
theorem C5_mark_product_idempotent_witness :
    row_count "A1"
      ((mark_product "A1" "kw" "t" "d" (some 1000) "s" "loc" "u"
        ((mark_product "A1" "kw" "t" "d" (some 1000) "s" "loc" "u" []).1)).1) = 1 := by
  have h := C5_mark_product_idempotent []
    ⟨"A1", "kw", "t", "d", 1000, "s", "loc", "u"⟩ (by simp [row_count])
  exact h.1

/-!
The monitor (`monitor_keyword`). One iteration of its `while True` loop
fetches a result list and runs a `for` loop over the listings.  Inside the
`for` body (src/main.py lines 242-271):

* `pull_up_text = it.get("pull_up_time_text", "")` is the parsed posting
  datetime or `None`;
* the guard `if pull_up_text > server_start_time:` raises a `TypeError`
  when `pull_up_text` is `None`, which aborts the whole `for` loop (the
  only enclosing handler is the iteration-level `except Exception`);
* a listing already in the table (`product_exists`) is skipped;
* otherwise the `try` block sends the Telegram message and then calls
  `mark_product`; an exception there (modelled by the oracle
  `notifyRaises`, true when `send_telegram` raises for that listing) is
  caught per listing, skipping `mark_product` but continuing the loop.
-/

/-- Result of running the `for` loop of one monitor iteration: the table
afterwards, the ids for which the Telegram send completed, and the
iteration-level exception when the loop aborted. -/
structure IterResult where
  ledger : List Row
  notified : List String
  aborted : Option String
  deriving DecidableEq, Repr

/-- Message of the exception raised by `None > server_start_time`. -/
def type_error_msg : String := "TypeError: NoneType is not comparable with datetime"

/-- Notify oracle that never raises (the nominal run of `send_telegram`). -/
def noNotifyFailure : String → Bool := fun _ => false

/-- Notify oracle under which `send_telegram` raises for every listing. -/
def notifyAlwaysRaises : String → Bool := fun _ => true

/-- The `for it in results:` loop of one `monitor_keyword` iteration,
src/main.py lines 242-271, over table state `db`. -/
def monitor_keyword_iter (epoch : Int) (notifyRaises : String → Bool) (keyword : String) :
    List Item → List Row → IterResult
  | [], db => ⟨db, [], none⟩
  | it :: rest, db =>
    match it.pull_up_time_text with
    | none => ⟨db, [], some type_error_msg⟩
    | some t =>
      if epoch < t then
        if product_exists db it.id then
          monitor_keyword_iter epoch notifyRaises keyword rest db
        else if notifyRaises it.id then
          monitor_keyword_iter epoch notifyRaises keyword rest db
        else
          let db2 := (mark_product it.id keyword it.title it.description it.price
            it.seller it.location it.url db).1
          let r := monitor_keyword_iter epoch notifyRaises keyword rest db2
          ⟨r.ledger, it.id :: r.notified, r.aborted⟩
      else
        monitor_keyword_iter epoch notifyRaises keyword rest db

/-- Line 46 of src/main.py: `server_start_time = datetime.now(KST) -
timedelta(days=3)`; the subtraction carries the comment that it exists for
testing. -/
def server_start_time (startup_now : Int) : Int := startup_now - 3 * 86400

theorem monitor_keyword_iter_cons_none (epoch : Int) (nr : String → Bool) (kw : String)
    (it : Item) (rest : List Item) (db : List Row) (h : it.pull_up_time_text = none) :
    monitor_keyword_iter epoch nr kw (it :: rest) db = ⟨db, [], some type_error_msg⟩ := by
  simp [monitor_keyword_iter, h]

theorem monitor_keyword_iter_cons_stale (epoch : Int) (nr : String → Bool) (kw : String)
    (it : Item) (rest : List Item) (db : List Row) (t : Int)
    (h : it.pull_up_time_text = some t) (h2 : ¬ epoch < t) :
    monitor_keyword_iter epoch nr kw (it :: rest) db =
      monitor_keyword_iter epoch nr kw rest db := by
  simp [monitor_keyword_iter, h, h2]

theorem monitor_keyword_iter_cons_seen (epoch : Int) (nr : String → Bool) (kw : String)
    (it : Item) (rest : List Item) (db : List Row) (t : Int)
    (h : it.pull_up_time_text = some t) (h2 : epoch < t)
    (h3 : product_exists db it.id = true) :
    monitor_keyword_iter epoch nr kw (it :: rest) db =
      monitor_keyword_iter epoch nr kw rest db := by
  simp [monitor_keyword_iter, h, h2, h3]

theorem monitor_keyword_iter_cons_notify_raise (epoch : Int) (nr : String → Bool) (kw : String)
    (it : Item) (rest : List Item) (db : List Row) (t : Int)
    (h : it.pull_up_time_text = some t) (h2 : epoch < t)
    (h3 : product_exists db it.id = false) (h4 : nr it.id = true) :
    monitor_keyword_iter epoch nr kw (it :: rest) db =
      monitor_keyword_iter epoch nr kw rest db := by
  simp [monitor_keyword_iter, h, h2, h3, h4]

theorem monitor_keyword_iter_cons_new (epoch : Int) (nr : String → Bool) (kw : String)
    (it : Item) (rest : List Item) (db : List Row) (t : Int)
    (h : it.pull_up_time_text = some t) (h2 : epoch < t)
    (h3 : product_exists db it.id = false) (h4 : nr it.id = false) :
    monitor_keyword_iter epoch nr kw (it :: rest) db =
      let db2 := (mark_product it.id kw it.title it.description it.price
        it.seller it.location it.url db).1
      let r := monitor_keyword_iter epoch nr kw rest db2
      ⟨r.ledger, it.id :: r.notified, r.aborted⟩ := by
  simp [monitor_keyword_iter, h, h2, h3, h4]

theorem sql_insert_or_ignore_of_not_exists (row : Row) (db : List Row)
    (h : product_exists db row.id = false) :
    sql_insert_or_ignore row db = db ++ [row] := by
  have hc : db.any (fun r => r.id == row.id) = false := h
  simp [sql_insert_or_ignore, hc]

theorem product_exists_append_single (db : List Row) (row : Row) (i : String) :
    product_exists (db ++ [row]) i = (product_exists db i || (row.id == i)) := by
  simp [product_exists]

theorem row_count_append_single (db : List Row) (row : Row) (i : String) :
    row_count i (db ++ [row]) = row_count i db + (if row.id == i then 1 else 0) := by
  by_cases h : row.id == i <;> simp [row_count, List.filter_append, h]

/-- An id already present in the table is never notified by a monitor
iteration, the number of its rows does not change, and it stays present. -/
theorem monitor_keyword_iter_exists_inv (epoch : Int) (nr : String → Bool) (kw : String)
    (items : List Item) : ∀ (db : List Row) (i : String),
    product_exists db i = true →
    (monitor_keyword_iter epoch nr kw items db).notified.count i = 0 ∧
    row_count i (monitor_keyword_iter epoch nr kw items db).ledger = row_count i db ∧
    product_exists (monitor_keyword_iter epoch nr kw items db).ledger i = true := by
  induction items with
  | nil => intro db i h; simp [monitor_keyword_iter, h]
  | cons it rest ih =>
    intro db i h
    cases hp : it.pull_up_time_text with
    | none =>
      rw [monitor_keyword_iter_cons_none _ _ _ _ _ _ hp]
      simp [h]
    | some t =>
      by_cases h2 : epoch < t
      · by_cases h3 : product_exists db it.id = true
        · rw [monitor_keyword_iter_cons_seen _ _ _ _ _ _ _ hp h2 h3]
          exact ih db i h
        · have h3f : product_exists db it.id = false := by
            cases hpe : product_exists db it.id
            · rfl
            · exact absurd hpe h3
          by_cases h4 : nr it.id = true
          · rw [monitor_keyword_iter_cons_notify_raise _ _ _ _ _ _ _ hp h2 h3f h4]
            exact ih db i h
          · have h4f : nr it.id = false := by
              cases hr : nr it.id
              · rfl
              · exact absurd hr h4
            rw [monitor_keyword_iter_cons_new _ _ _ _ _ _ _ hp h2 h3f h4f]
            have hne : it.id ≠ i := by
              intro he
              rw [he] at h3f
              rw [h3f] at h
              cases h
            have hdb2 : (mark_product it.id kw it.title it.description it.price
                it.seller it.location it.url db).1 =
                db ++ [⟨it.id, kw, it.title, it.description, price_int it.price,
                  it.seller, it.location, it.url⟩] := by
              simp only [mark_product]
              exact sql_insert_or_ignore_of_not_exists _ db h3f
            have hex2 : product_exists (db ++ [⟨it.id, kw, it.title, it.description,
                price_int it.price, it.seller, it.location, it.url⟩]) i = true := by
              rw [product_exists_append_single, h]
              simp
            have hrc2 : row_count i (db ++ [⟨it.id, kw, it.title, it.description,
                price_int it.price, it.seller, it.location, it.url⟩]) = row_count i db := by
              rw [row_count_append_single]
              simp [hne]
            obtain ⟨hcnt, hrc, hexx⟩ := ih _ i hex2
            rw [hdb2]
            refine ⟨?_, ?_, ?_⟩
            · simp only [List.count_cons]
              rw [hcnt]
              simp [hne]
            · rw [hrc, hrc2]
            · exact hexx
      · rw [monitor_keyword_iter_cons_stale _ _ _ _ _ _ _ hp h2]
        exact ih db i h

/-- Processing a prefix whose listings all carry timestamps and whose ids
differ from `i` neither aborts before the rest nor affects anything the rest
does about id `i`. -/
theorem monitor_keyword_iter_clean_prefix (epoch : Int) (nr : String → Bool) (kw : String)
    (pre : List Item) : ∀ (rest : List Item) (db : List Row) (i : String),
    (∀ x ∈ pre, x.pull_up_time_text ≠ none) →
    (∀ x ∈ pre, x.id ≠ i) →
    product_exists db i = false →
    ∃ db2, product_exists db2 i = false ∧
      (monitor_keyword_iter epoch nr kw (pre ++ rest) db).notified.count i =
        (monitor_keyword_iter epoch nr kw rest db2).notified.count i ∧
      row_count i (monitor_keyword_iter epoch nr kw (pre ++ rest) db).ledger =
        row_count i (monitor_keyword_iter epoch nr kw rest db2).ledger := by
  induction pre with
  | nil => intro rest db i _ _ hex; exact ⟨db, hex, rfl, rfl⟩
  | cons x pre' ih =>
    intro rest db i hts hid hex
    obtain ⟨t, hp⟩ : ∃ t, x.pull_up_time_text = some t := by
      cases hxp : x.pull_up_time_text
      · exact absurd hxp (hts x (by simp))
      · exact ⟨_, rfl⟩
    have hxid : x.id ≠ i := hid x (by simp)
    have hts' : ∀ y ∈ pre', y.pull_up_time_text ≠ none := fun y hy => hts y (by simp [hy])
    have hid' : ∀ y ∈ pre', y.id ≠ i := fun y hy => hid y (by simp [hy])
    rw [List.cons_append]
    by_cases h2 : epoch < t
    · by_cases h3 : product_exists db x.id = true
      · rw [monitor_keyword_iter_cons_seen _ _ _ _ _ _ _ hp h2 h3]
        exact ih rest db i hts' hid' hex
      · have h3f : product_exists db x.id = false := by
          cases hpe : product_exists db x.id
          · rfl
          · exact absurd hpe h3
        by_cases h4 : nr x.id = true
        · rw [monitor_keyword_iter_cons_notify_raise _ _ _ _ _ _ _ hp h2 h3f h4]
          exact ih rest db i hts' hid' hex
        · have h4f : nr x.id = false := by
            cases hr : nr x.id
            · rfl
            · exact absurd hr h4
          rw [monitor_keyword_iter_cons_new _ _ _ _ _ _ _ hp h2 h3f h4f]
          have hdb2 : (mark_product x.id kw x.title x.description x.price
              x.seller x.location x.url db).1 =
              db ++ [⟨x.id, kw, x.title, x.description, price_int x.price,
                x.seller, x.location, x.url⟩] := by
            simp only [mark_product]
            exact sql_insert_or_ignore_of_not_exists _ db h3f
          have hex2 : product_exists (db ++ [⟨x.id, kw, x.title, x.description,
              price_int x.price, x.seller, x.location, x.url⟩]) i = false := by
            rw [product_exists_append_single, hex]
            simp [hxid]
          obtain ⟨db3, hdb3, hcnt, hrc⟩ := ih rest _ i hts' hid' hex2
          rw [hdb2] at *
          refine ⟨db3, hdb3, ?_, ?_⟩
          · simp only [List.count_cons]
            rw [← hcnt]
            simp [hxid]
          · exact hrc
    · rw [monitor_keyword_iter_cons_stale _ _ _ _ _ _ _ hp h2]
      exact ih rest db i hts' hid' hex

/-- Example listing whose detail page yielded no timestamp
(`pull_up_time_text` is `None`). -/
def ex_no_time : Item := ⟨"N", "t1", "d1", "u1", some 500, "s1", "loc", "kw", none⟩

/-- Example listing posted at time 10 (after an epoch of 0). -/
def ex_fresh : Item := ⟨"F", "t2", "d2", "u2", some 1500, "s2", "loc", "kw", some 10⟩

/-- Example listing posted one second before a startup timestamp of
1000000. -/
def ex_pre_startup : Item := ⟨"P", "t3", "d3", "u3", some 2000, "s3", "loc", "kw", some 999999⟩

/-- C2 (code bug): in an iteration whose fetch result is a listing without
`posted_at` followed by a fresh listing, the comparison `None >
server_start_time` raises a TypeError that aborts the whole `for` loop: the
fresh listing is not notified and not recorded, the table is untouched;
the second conjunct shows the same fresh listing is notified when processed
on its own, so only the abort prevented it. -/
theorem C2_absent_posted_at_aborts_iteration :
    monitor_keyword_iter 0 noNotifyFailure "kw" [ex_no_time, ex_fresh] [] =
      ⟨[], [], some type_error_msg⟩ ∧
    (monitor_keyword_iter 0 noNotifyFailure "kw" [ex_fresh] []).notified = ["F"] := by
  constructor <;> rfl

/-- C3 (code bug): `server_start_time` is the startup instant minus three
days (a testing leftover by the source's own comment), so a listing posted
one second before startup (999999 against startup 1000000) passes the
recency guard and is notified from an empty ledger; had the epoch been the
startup timestamp itself, as the spec states, it would not have been. -/
theorem C3_pre_startup_listing_notified :
    server_start_time 1000000 = 1000000 - 259200 ∧
    (monitor_keyword_iter (server_start_time 1000000) noNotifyFailure "kw"
      [ex_pre_startup] []).notified = ["P"] ∧
    (monitor_keyword_iter 1000000 noNotifyFailure "kw" [ex_pre_startup] []).notified = [] := by
  refine ⟨rfl, rfl, rfl⟩

/-- C4 counterexample: listing F has `posted_at` present (time 10), after
the epoch 0, and its id is absent from the (empty) ledger, and the first
iteration observing it has fetch result [N, F]; yet that iteration performs
zero notifications and zero inserts for F, because N's absent timestamp
aborts the loop before F is reached. -/
theorem C4_first_observation_counterexample :
    (monitor_keyword_iter 0 noNotifyFailure "kw" [ex_no_time, ex_fresh] []).notified.count
      "F" = 0 ∧
    row_count "F" (monitor_keyword_iter 0 noNotifyFailure "kw" [ex_no_time, ex_fresh] []).ledger
      = 0 ∧
    ex_fresh.pull_up_time_text = some 10 ∧ (0 : Int) < 10 ∧ product_exists [] "F" = false := by
  refine ⟨rfl, rfl, rfl, by decide, rfl⟩

/-- C4 (amended): provided every listing processed before L in the same
fetch result carries a timestamp (so the loop reaches L) and has an id
other than L's, and the notify step for L does not raise, the first
iteration observing a fresh post-epoch listing L notifies it exactly once
and leaves exactly one ledger row with its id; and, unconditionally, an id
already in the ledger receives zero notifications from any iteration. -/
theorem C4_first_observation_exactly_once :
    (∀ (epoch : Int) (nr : String → Bool) (kw : String) (pre post : List Item)
       (L : Item) (t : Int) (db : List Row),
      L.pull_up_time_text = some t → epoch < t →
      product_exists db L.id = false →
      (∀ x ∈ pre, x.pull_up_time_text ≠ none) →
      (∀ x ∈ pre, x.id ≠ L.id) →
      nr L.id = false →
      (monitor_keyword_iter epoch nr kw (pre ++ L :: post) db).notified.count L.id = 1 ∧
      row_count L.id (monitor_keyword_iter epoch nr kw (pre ++ L :: post) db).ledger = 1)
    ∧
    (∀ (epoch : Int) (nr : String → Bool) (kw : String) (items : List Item)
       (db : List Row) (i : String),
      product_exists db i = true →
      (monitor_keyword_iter epoch nr kw items db).notified.count i = 0) := by
  constructor
  · intro epoch nr kw pre post L t db hp h2 hex hts hid h4
    obtain ⟨db2, hex2, hcnt, hrc⟩ :=
      monitor_keyword_iter_clean_prefix epoch nr kw pre (L :: post) db L.id hts hid hex
    rw [hcnt, hrc]
    rw [monitor_keyword_iter_cons_new _ _ _ _ _ _ _ hp h2 hex2 h4]
    have hdb3 : (mark_product L.id kw L.title L.description L.price
        L.seller L.location L.url db2).1 =
        db2 ++ [⟨L.id, kw, L.title, L.description, price_int L.price,
          L.seller, L.location, L.url⟩] := by
      simp only [mark_product]
      exact sql_insert_or_ignore_of_not_exists _ db2 hex2
    have hex3 : product_exists (db2 ++ [⟨L.id, kw, L.title, L.description,
        price_int L.price, L.seller, L.location, L.url⟩]) L.id = true := by
      rw [product_exists_append_single]
      simp
    have hrc3 : row_count L.id (db2 ++ [⟨L.id, kw, L.title, L.description,
        price_int L.price, L.seller, L.location, L.url⟩]) = 1 := by
      rw [row_count_append_single]
      rw [(product_exists_false_iff_row_count_zero db2 L.id).mp hex2]
      simp
    obtain ⟨hcnt2, hrc2, _⟩ :=
      monitor_keyword_iter_exists_inv epoch nr kw post _ L.id hex3
    rw [hdb3] at *
    constructor
    · simp only [List.count_cons]
      rw [hcnt2]
      simp
    · rw [hrc2, hrc3]
  · intro epoch nr kw items db i h
    exact (monitor_keyword_iter_exists_inv epoch nr kw items db i h).1

/-- Witness for C4 (amended) with the fresh listing alone in the fetch
result of the first iteration, and re-observed in a second iteration. -/
theorem C4_first_observation_exactly_once_witness :
    ((monitor_keyword_iter 0 noNotifyFailure "kw" ([] ++ ex_fresh :: []) []).notified.count
      "F" = 1 ∧
     row_count "F" (monitor_keyword_iter 0 noNotifyFailure "kw"
      ([] ++ ex_fresh :: []) []).ledger = 1) ∧
    (monitor_keyword_iter 0 noNotifyFailure "kw" [ex_fresh]
      (monitor_keyword_iter 0 noNotifyFailure "kw" ([] ++ ex_fresh :: []) []).ledger).notified.count
      "F" = 0 := by
  constructor
  · exact C4_first_observation_exactly_once.1 0 noNotifyFailure "kw" [] [] ex_fresh 10 []
      rfl (by decide) rfl (by simp) (by simp) rfl
  · exact C4_first_observation_exactly_once.2 0 noNotifyFailure "kw" [ex_fresh] _ "F" (by decide)

/-- C8 counterexample: for the fresh post-epoch listing F, when the notify
step raises, the iteration leaves the ledger empty — F's id is not
inserted, contradicting the claim that the insert happens regardless of the
notify outcome. -/
theorem C8_insert_skipped_counterexample :
    product_exists (monitor_keyword_iter 0 notifyAlwaysRaises "kw" [ex_fresh] []).ledger
      "F" = false ∧
    (monitor_keyword_iter 0 notifyAlwaysRaises "kw" [ex_fresh] []).ledger = [] := by
  constructor <;> rfl

/-- C8 (amended): when the notify step raises for a fresh post-epoch
listing, the per-listing handler swallows the exception and the ledger
insert is skipped — the iteration ends with the table and notifications
unchanged — so a later iteration observing the listing again with the send
succeeding notifies it once more. -/
theorem C8_notify_failure_skips_insert (epoch : Int) (nr : String → Bool) (kw : String)
    (L : Item) (t : Int) (db : List Row)
    (hp : L.pull_up_time_text = some t) (h2 : epoch < t)
    (h3 : product_exists db L.id = false) (h4 : nr L.id = true) :
    monitor_keyword_iter epoch nr kw [L] db = ⟨db, [], none⟩ ∧
    (monitor_keyword_iter epoch noNotifyFailure kw [L] db).notified = [L.id] := by
  constructor
  · rw [monitor_keyword_iter_cons_notify_raise _ _ _ _ _ _ _ hp h2 h3 h4]
    rfl
  · rw [monitor_keyword_iter_cons_new _ _ _ _ _ _ _ hp h2 h3 rfl]
    rfl

/-- Witness for C8 (amended) at the concrete fresh listing and empty
table. -/
theorem C8_notify_failure_skips_insert_witness :
    monitor_keyword_iter 0 notifyAlwaysRaises "kw" [ex_fresh] [] = ⟨[], [], none⟩ ∧
    (monitor_keyword_iter 0 noNotifyFailure "kw" [ex_fresh] []).notified = ["F"] :=
  C8_notify_failure_skips_insert 0 notifyAlwaysRaises "kw" ex_fresh 10 []
    rfl (by decide) rfl rfl

/-!
The one-shot `/scan` endpoint (`scan_products`, src/main.py lines 341-378).
Its `for` loop skips listings without a parsed datetime; for a listing
inside the lookback window it sends the Telegram message and then evaluates
`sent_items.append(id["id"])` — subscripting the Python builtin `id`, which
raises a TypeError caught by the endpoint's outer handler.  `sent_items` is
therefore never extended, and the first in-window listing turns the
response into `{status: "error"}`.  The function touches no database.
-/

/-- Message of the exception raised by `id["id"]`. -/
def subscript_error_msg : String := "TypeError: builtin id is not subscriptable"

/-- The `for it in results:` loop of `scan_products`, accumulating
`sent_items` and the ids actually sent to Telegram; the third component is
the exception that aborted the loop, if any. -/
def scan_products_loop (cutoff : Int) :
    List Item → List String → List String → List String × List String × Option String
  | [], sent, notifs => (sent, notifs, none)
  | it :: rest, sent, notifs =>
    match it.pull_up_time_text with
    | none => scan_products_loop cutoff rest sent notifs
    | some t =>
      if cutoff ≤ t then (sent, notifs ++ [it.id], some subscript_error_msg)
      else scan_products_loop cutoff rest sent notifs

/-- Endpoint response of `/scan`. -/
inductive ScanResponse where
  | success (sent_count : Nat) (sent_ids : List String)
  | error (detail : String)
  deriving DecidableEq, Repr

/-- `scan_products`: computes `cutoff_time = now - timedelta(days=days)`,
runs the loop, and reports success with `sent_items` or the caught
exception as `{status: "error", detail}`.  Returns the response together
with the ids for which a notification was sent. -/
def scan_products (now_kst : Int) (days : Int) (results : List Item) :
    ScanResponse × List String :=
  let cutoff := now_kst - days * 86400
  match scan_products_loop cutoff results [] [] with
  | (sent, notifs, none) => (.success sent.length sent, notifs)
  | (_, notifs, some e) => (.error e, notifs)

/-- Example listing posted two days before a scan at time 0. -/
def ex_scan_old : Item := ⟨"OLD", "to", "do", "uo", some 3000, "so", "loc", "kw", some (-172800)⟩

/-- Example listing posted half a day before a scan at time 0. -/
def ex_scan_half_day : Item :=
  ⟨"NEW", "tn", "dn", "un", some 4000, "sn", "loc", "kw", some (-43200)⟩

/-- C1 (code bug): a scan with days = 1 over a snapshot holding a 2-day-old
and a 0.5-day-old listing sends the single in-window notification (for
"NEW") and then raises on `id["id"]`, so the endpoint answers
`{status: "error"}` — not success with sent_count 1 and sent_ids ["NEW"].
(The function reads and writes no table: `scan_products` takes no ledger at
all.) -/
theorem C1_scan_returns_error_not_success :
    scan_products 0 1 [ex_scan_old, ex_scan_half_day] =
      (ScanResponse.error subscript_error_msg, ["NEW"]) := by
  rfl

/-!
The watch registry: the module-level dict `_monitor_tasks` mapping the
filter key `f"{location}:{keyword}:{min_price}:{max_price}"` to the spawned
asyncio task.  A task is modelled by its `done()` flag and whether
`cancel()` has been requested.
-/

/-- The request body of `/watch` and `/stop`. -/
structure WatchRequest where
  location : String
  keyword : String
  min_price : Option Int
  max_price : Option Int
  deriving DecidableEq, Repr

/-- An asyncio task handle: its `done()` state and whether `cancel()` has
been called on it. -/
structure TaskH where
  done : Bool
  cancelRequested : Bool
  deriving DecidableEq, Repr

/-- The module-level dict `_monitor_tasks`, as an association list with the
dict's unique-key invariant maintained by `dict_set`. -/
abbrev Registry := List (String × TaskH)

/-- Python str() of an optional price as the f-string interpolates it:
`None` when the bound is absent. -/
def fmt_opt_price : Option Int → String
  | none => "None"
  | some n => toString n

/-- The filter key `f"{location}:{keyword}:{min_price}:{max_price}"`. -/
def filter_key (req : WatchRequest) : String :=
  req.location ++ ":" ++ req.keyword ++ ":" ++ fmt_opt_price req.min_price ++ ":" ++
    fmt_opt_price req.max_price

/-- Dict lookup (`_monitor_tasks.get(key)` / `key in _monitor_tasks`). -/
def dict_get : Registry → String → Option TaskH
  | [], _ => none
  | e :: rest, k => if e.1 == k then some e.2 else dict_get rest k

/-- Dict assignment `_monitor_tasks[key] = task`. -/
def dict_set : Registry → String → TaskH → Registry
  | [], k, v => [(k, v)]
  | e :: rest, k, v => if e.1 == k then (k, v) :: rest else e :: dict_set rest k v

/-- The guard `key in _monitor_tasks and not _monitor_tasks[key].done()`. -/
def live_at (m : Registry) (k : String) : Bool :=
  match dict_get m k with
  | some t => !t.done
  | none => false

/-- A freshly spawned monitor task: not done, no cancellation requested. -/
def new_task : TaskH := ⟨false, false⟩

/-- Endpoint response of `/watch`. -/
inductive WatchResponse where
  | already_watching
  | watching (location keyword : String) (min_price max_price : Option Int)
  deriving DecidableEq, Repr

/-- `watch` (src/main.py lines 329-339): when a live task is registered
under the key, answer already_watching; otherwise spawn a task and record
it under the key. -/
def watch (m : Registry) (req : WatchRequest) : WatchResponse × Registry :=
  if live_at m (filter_key req) then (.already_watching, m)
  else (.watching req.location req.keyword req.min_price req.max_price,
    dict_set m (filter_key req) new_task)

/-- Endpoint response of `/stop`. -/
inductive StopResponse where
  | stopping
  | not_found
  deriving DecidableEq, Repr

/-- `task.cancel()`: cancellation is requested; completion stays
asynchronous, so `done` is untouched. -/
def cancel (t : TaskH) : TaskH := { t with cancelRequested := true }

/-- `stop_watch` (lines 389-396): `_monitor_tasks.get(key)`; a registered
task (task objects are always truthy) gets `cancel()` and the reply
stopping, without waiting for the task to finish; a missing key gets
not_found. -/
def stop_watch (m : Registry) (req : WatchRequest) : StopResponse × Registry :=
  match dict_get m (filter_key req) with
  | some t => (.stopping, dict_set m (filter_key req) (cancel t))
  | none => (.not_found, m)

/-- Python `key.split(":")` on the character list of the key. -/
def split_colon_aux : List Char → List Char → List String
  | [], acc => [String.mk acc.reverse]
  | c :: rest, acc =>
    if c = ':' then String.mk acc.reverse :: split_colon_aux rest []
    else split_colon_aux rest (c :: acc)

/-- Python `key.split(":")`. -/
def split_colon (s : String) : List String := split_colon_aux s.toList []

/-- `active_watches` (lines 380-387): the non-done entries, reporting as
location and keyword the first two `:`-separated parts of the key
(`loc, kw, *_ = key.split(":")`). -/
def active_watches (m : Registry) : List (String × String × String) :=
  m.filterMap fun e =>
    if e.2.done then none
    else some (e.1, (split_colon e.1).getD 0 "", (split_colon e.1).getD 1 "")

def count_key (k : String) (m : Registry) : Nat :=
  (m.filter (fun e => e.1 == k)).length

theorem dict_get_dict_set_self (m : Registry) (k : String) (v : TaskH) :
    dict_get (dict_set m k v) k = some v := by
  induction m with
  | nil => simp [dict_get, dict_set]
  | cons e rest ih =>
    by_cases h : e.1 == k
    · simp [dict_get, dict_set, h]
    · simp [dict_get, dict_set, h, ih]

/-- Example filter used for registry scenarios. -/
def ex_req : WatchRequest := ⟨"seoul", "bike", none, none⟩

/-- C6: a `watch` with a filter whose key already maps to a live (not done)
task answers already_watching and leaves the registry untouched — no task
is spawned, the key keeps its single live entry; otherwise (key absent, or
its task done) a fresh not-done task is created and recorded under the
key. -/
theorem C6_watch_idempotent_on_live_key :
    (∀ (m : Registry) (req : WatchRequest) (t : TaskH),
      dict_get m (filter_key req) = some t → t.done = false →
      count_key (filter_key req) m = 1 →
      watch m req = (.already_watching, m) ∧
      count_key (filter_key req) (watch m req).2 = 1 ∧
      dict_get (watch m req).2 (filter_key req) = some t) ∧
    (∀ (m : Registry) (req : WatchRequest),
      live_at m (filter_key req) = false →
      (watch m req).1 = .watching req.location req.keyword req.min_price req.max_price ∧
      dict_get (watch m req).2 (filter_key req) = some new_task) := by
  constructor
  · intro m req t hg hd hc
    have hl : live_at m (filter_key req) = true := by simp [live_at, hg, hd]
    have hw : watch m req = (.already_watching, m) := by simp [watch, hl]
    refine ⟨hw, ?_, ?_⟩
    · rw [hw]
      exact hc
    · rw [hw]
      exact hg
  · intro m req hl
    simp [watch, hl, dict_get_dict_set_self]

/-- Witness for C6: second watch on a live key is a no-op answering
already_watching; watch on an empty registry spawns and records. -/
theorem C6_watch_idempotent_on_live_key_witness :
    (watch [(filter_key ex_req, new_task)] ex_req =
      (.already_watching, [(filter_key ex_req, new_task)]) ∧
     count_key (filter_key ex_req) (watch [(filter_key ex_req, new_task)] ex_req).2 = 1) ∧
    ((watch [] ex_req).1 = .watching "seoul" "bike" none none ∧
     dict_get (watch [] ex_req).2 (filter_key ex_req) = some new_task) := by
  constructor
  · have h := C6_watch_idempotent_on_live_key.1 [(filter_key ex_req, new_task)] ex_req
      new_task (by simp [dict_get]) rfl (by simp [count_key])
    exact ⟨h.1, h.2.1⟩
  · exact C6_watch_idempotent_on_live_key.2 [] ex_req rfl

/-- C7: `stop_watch` answers not_found and changes nothing when no task is
registered under the filter's key; when one is registered it answers
stopping and re-records that task with cancellation requested, its done
flag untouched — cancellation is requested, not awaited. -/
theorem C7_stop_watch_behaviour (m : Registry) (req : WatchRequest) :
    (dict_get m (filter_key req) = none → stop_watch m req = (.not_found, m)) ∧
    (∀ t, dict_get m (filter_key req) = some t →
      (stop_watch m req).1 = .stopping ∧
      dict_get (stop_watch m req).2 (filter_key req) = some (cancel t) ∧
      (cancel t).done = t.done ∧ (cancel t).cancelRequested = true) := by
  constructor
  · intro h
    simp [stop_watch, h]
  · intro t h
    simp [stop_watch, h, dict_get_dict_set_self, cancel]

/-- Witness for C7: stop on an empty registry answers not_found; stop on
the registered key answers stopping with cancellation recorded. -/
theorem C7_stop_watch_behaviour_witness :
    stop_watch [] ex_req = (.not_found, []) ∧
    (stop_watch [(filter_key ex_req, new_task)] ex_req).1 = .stopping ∧
    dict_get (stop_watch [(filter_key ex_req, new_task)] ex_req).2 (filter_key ex_req) =
      some (cancel new_task) := by
  refine ⟨(C7_stop_watch_behaviour [] ex_req).1 rfl, ?_, ?_⟩
  · exact ((C7_stop_watch_behaviour [(filter_key ex_req, new_task)] ex_req).2 new_task
      (by simp [dict_get])).1
  · exact ((C7_stop_watch_behaviour [(filter_key ex_req, new_task)] ex_req).2 new_task
      (by simp [dict_get])).2.1

/-- Filter with a colon inside the location. -/
def ex_req_colon_loc : WatchRequest := ⟨"a:b", "c", none, none⟩

/-- Different filter, colon inside the keyword, same key. -/
def ex_req_colon_kw : WatchRequest := ⟨"a", "b:c", none, none⟩

/-- C10: the colon encoding of filter keys is not injective: the filters
(location "a:b", keyword "c") and (location "a", keyword "b:c") differ yet
share the key "a:b:c:None:None", so while the first filter's monitor is
live a watch for the second answers already_watching and spawns nothing,
stop on either filter hits the same entry, and the active listing shows the
same (misparsed) location "a" and keyword "b" for the shared key. -/
theorem C10_filter_key_collision :
    filter_key ex_req_colon_loc = filter_key ex_req_colon_kw ∧
    ex_req_colon_loc ≠ ex_req_colon_kw ∧
    watch [(filter_key ex_req_colon_loc, new_task)] ex_req_colon_kw =
      (.already_watching, [(filter_key ex_req_colon_loc, new_task)]) ∧
    stop_watch [(filter_key ex_req_colon_loc, new_task)] ex_req_colon_kw =
      stop_watch [(filter_key ex_req_colon_loc, new_task)] ex_req_colon_loc ∧
    active_watches [(filter_key ex_req_colon_loc, new_task)] =
      [("a:b:c:None:None", "a", "b")] := by
  refine ⟨rfl, by decide, rfl, rfl, rfl⟩

/-!
Loop control of `monitor_keyword` (src/main.py lines 237-278): the body of
`while True` is a `try` whose last statement sleeps `POLL_INTERVAL`
seconds; `except Exception` logs and sleeps 5 seconds before the next
iteration; only `asyncio.CancelledError` — raised by an external
cancellation request and deliberately not caught by `except Exception` —
leaves the loop.
-/

/-- `POLL_INTERVAL = int(os.getenv("POLL_INTERVAL", "20"))`: the configured
value, defaulting to 20 seconds. -/
def POLL_INTERVAL (env : Option Nat) : Nat := env.getD 20

/-- How one iteration of the `while True` body ended. -/
inductive IterOutcome where
  | ok
  | iterError (msg : String)
  | cancelRequest
  deriving DecidableEq, Repr

/-- What the loop does next. -/
inductive LoopAction where
  | sleepThenContinue (seconds : Nat)
  | exitLoop
  deriving DecidableEq, Repr

/-- The loop control of `monitor_keyword`: sleep `POLL_INTERVAL` after a
normal iteration, sleep 5 and continue after any iteration-level exception,
exit only on cancellation. -/
def monitor_keyword_step (pollInterval : Nat) : IterOutcome → LoopAction
  | .ok => .sleepThenContinue pollInterval
  | .iterError _ => .sleepThenContinue 5
  | .cancelRequest => .exitLoop

/-- C9: every iteration-level error makes the monitor sleep the fixed
recovery interval of 5 seconds — strictly shorter than the default poll
interval of 20 — and continue looping; the loop exits exactly on an
explicit cancellation request, whatever the configured poll interval. -/
theorem C9_monitor_survives_errors :
    (∀ (p : Nat) (msg : String),
      monitor_keyword_step p (.iterError msg) = .sleepThenContinue 5) ∧
    5 < POLL_INTERVAL none ∧
    (∀ (p : Nat) (o : IterOutcome),
      monitor_keyword_step p o = .exitLoop ↔ o = .cancelRequest) := by
  refine ⟨fun p msg => rfl, by decide, fun p o => ?_⟩
  cases o <;> simp [monitor_keyword_step]
